import Mathlib

/-!
Verification of yanyaengine claims: occluder geometry (`src/occluding_plane.rs`),
the debug dirty-guard (`src/object.rs`), in-place model replacement
(`src/object.rs`), and the frame/event loop (`src/window.rs`).

Floating-point arithmetic of the source is modelled over `ℚ`; the algebraic
structure of every claim is rounding-independent.
-/

namespace Yanya

/-- 2-component vector, mirroring `nalgebra::Vector2<f32>`. -/
structure Vec2 where
  x : ℚ
  y : ℚ
deriving Repr, DecidableEq

/-- 3-component vector, mirroring `nalgebra::Vector3<f32>`. -/
structure Vec3 where
  x : ℚ
  y : ℚ
  z : ℚ
deriving Repr, DecidableEq

/-- 4-component vector, mirroring `nalgebra::Vector4<f32>`. -/
structure Vec4 where
  x : ℚ
  y : ℚ
  z : ℚ
  w : ℚ
deriving Repr, DecidableEq

/-- `Vector4::xyz()`. -/
def Vec4.xyz (v : Vec4) : Vec3 := ⟨v.x, v.y, v.z⟩

/-- `Vector4::xy()` / `Vector3::xy()`. -/
def Vec4.xy (v : Vec4) : Vec2 := ⟨v.x, v.y⟩

def Vec3.xy (v : Vec3) : Vec2 := ⟨v.x, v.y⟩

/-- `with_w` closure of `OccludingPlane::calculate_vertices`:
`Vector4::new(values.x, values.y, values.z, w)`. -/
def with_w (values : Vec3) (w : ℚ) : Vec4 := ⟨values.x, values.y, values.z, w⟩

/-- Row-major 4×4 matrix, mirroring `nalgebra::Matrix4<f32>`. -/
structure Mat4 where
  r0 : Vec4
  r1 : Vec4
  r2 : Vec4
  r3 : Vec4
deriving Repr, DecidableEq

def dot4 (a b : Vec4) : ℚ := a.x * b.x + a.y * b.y + a.z * b.z + a.w * b.w

/-- Matrix–vector product. -/
def Mat4.mulVec (m : Mat4) (v : Vec4) : Vec4 :=
  ⟨dot4 m.r0 v, dot4 m.r1 v, dot4 m.r2 v, dot4 m.r3 v⟩

/-- The identity matrix (used for concrete evaluations). -/
def id4 : Mat4 :=
  ⟨⟨1, 0, 0, 0⟩, ⟨0, 1, 0, 0⟩, ⟨0, 0, 1, 0⟩, ⟨0, 0, 0, 1⟩⟩

/-- `OccluderPoints` of `src/occluding_plane.rs`. -/
structure OccluderPoints where
  bottom_left : Vec2
  bottom_right : Vec2
  top_left : Vec2
  top_right : Vec2
deriving Repr, DecidableEq

/-- Embedding of `OccludingPlane::calculate_vertices`
(`src/occluding_plane.rs:84-150`).  Arguments: the object's model matrix
(`self.transform.matrix()`), the light `origin`, the `projection_view`
matrix and the construction-time `reverse_winding` flag.  Returns the
emitted vertices, the `OccluderPoints` and `is_clockwise`. -/
def calculate_vertices (transform : Mat4) (origin : Vec3) (projection_view : Mat4)
    (reverse_winding : Bool) : List Vec4 × OccluderPoints × Bool :=
  let un_bottom_left := transform.mulVec ⟨-(1/2 : ℚ), 0, 0, 1⟩
  let un_bottom_right := transform.mulVec ⟨(1/2 : ℚ), 0, 0, 1⟩
  -- `let mut un_top_left = un_bottom_left.xyz() - origin; un_top_left.z = 0.0;`
  let un_top_left : Vec3 :=
    { (⟨un_bottom_left.x - origin.x, un_bottom_left.y - origin.y,
        un_bottom_left.z - origin.z⟩ : Vec3) with z := 0 }
  let un_top_right : Vec3 :=
    { (⟨un_bottom_right.x - origin.x, un_bottom_right.y - origin.y,
        un_bottom_right.z - origin.z⟩ : Vec3) with z := 0 }
  let bottom_left := projection_view.mulVec un_bottom_left
  let bottom_right := projection_view.mulVec un_bottom_right
  let top_left := projection_view.mulVec (with_w un_top_left 0)
  let top_right := projection_view.mulVec (with_w un_top_right 0)
  -- the z of bottom_left overwrites the z of the other three
  let bottom_right := { bottom_right with z := bottom_left.z }
  let top_left := { top_left with z := bottom_left.z }
  let top_right := { top_right with z := bottom_left.z }
  let vertices :=
    if !reverse_winding then [bottom_left, top_left, bottom_right, top_right]
    else [top_right, top_left, bottom_right, bottom_left]
  -- winding block: `un_top_left = un_bottom_left.xyz() + un_bottom_left.xyz() - origin`
  let w_un_top_left : Vec3 :=
    ⟨un_bottom_left.x + un_bottom_left.x - origin.x,
     un_bottom_left.y + un_bottom_left.y - origin.y,
     un_bottom_left.z + un_bottom_left.z - origin.z⟩
  let w_un_top_right : Vec2 :=
    ⟨un_bottom_right.x + un_bottom_right.x - origin.x,
     un_bottom_right.y + un_bottom_right.y - origin.y⟩
  let w_top_left := projection_view.mulVec (with_w w_un_top_left 1)
  let i0 : Vec2 := ⟨bottom_right.x - bottom_left.x, bottom_right.y - bottom_left.y⟩
  let i1 : Vec2 := ⟨w_top_left.x - bottom_left.x, w_top_left.y - bottom_left.y⟩
  let is_clockwise := decide (i0.x * i1.y > i0.y * i1.x)
  let points : OccluderPoints :=
    ⟨un_bottom_left.xy, un_bottom_right.xy, w_un_top_left.xy, w_un_top_right⟩
  (vertices, points, is_clockwise)

/-- The homogeneous vector fed to `projection_view` for the emitted top-left
vertex: `with_w(un_top_left, 0.0)` in `calculate_vertices`. -/
def vertexTopLeftArg (transform : Mat4) (origin : Vec3) : Vec4 :=
  let un_bottom_left := transform.mulVec ⟨-(1/2 : ℚ), 0, 0, 1⟩
  with_w { (⟨un_bottom_left.x - origin.x, un_bottom_left.y - origin.y,
            un_bottom_left.z - origin.z⟩ : Vec3) with z := 0 } 0

/-- The homogeneous vector fed to `projection_view` inside the winding block:
`with_w(un_bottom_left.xyz() + un_bottom_left.xyz() - origin, 1.0)`. -/
def windingTopLeftArg (transform : Mat4) (origin : Vec3) : Vec4 :=
  let un_bottom_left := transform.mulVec ⟨-(1/2 : ℚ), 0, 0, 1⟩
  with_w ⟨un_bottom_left.x + un_bottom_left.x - origin.x,
          un_bottom_left.y + un_bottom_left.y - origin.y,
          un_bottom_left.z + un_bottom_left.z - origin.z⟩ 1

/-- The spec's extruded far-edge point for the left base point, following the
spec's words: `top = base + (base − origin)` with the z coordinate forced to 0
before extrusion, where `base` is the bottom-left point transformed by the
model matrix. -/
def specTopLeft (transform : Mat4) (origin : Vec3) : Vec3 :=
  let base := (transform.mulVec ⟨-(1/2 : ℚ), 0, 0, 1⟩).xyz
  let base0 : Vec3 := ⟨base.x, base.y, 0⟩
  let origin0 : Vec3 := ⟨origin.x, origin.y, 0⟩
  ⟨base0.x + (base0.x - origin0.x), base0.y + (base0.y - origin0.y),
   base0.z + (base0.z - origin0.z)⟩

/-- The spec's extruded far-edge point for the right base point. -/
def specTopRight (transform : Mat4) (origin : Vec3) : Vec3 :=
  let base := (transform.mulVec ⟨(1/2 : ℚ), 0, 0, 1⟩).xyz
  let base0 : Vec3 := ⟨base.x, base.y, 0⟩
  let origin0 : Vec3 := ⟨origin.x, origin.y, 0⟩
  ⟨base0.x + (base0.x - origin0.x), base0.y + (base0.y - origin0.y),
   base0.z + (base0.z - origin0.z)⟩

/-! ## `OccludingPlane` state and `update_buffers` / `draw`
(`src/occluding_plane.rs:29-41, 179-237`). -/

/-- The fields of `OccludingPlane` relevant to the claims (the GPU subbuffer
handles are identities; the vertex data written through them is returned by
`update_buffers` below).  `updated_buffers` is the debug dirty-guard. -/
structure OccState where
  transform : Mat4
  points : Option OccluderPoints
  is_back : Bool
  reverse_winding : Bool
  debug_points : OccluderPoints
  updated_buffers : Option Bool
deriving Repr, DecidableEq

def zeroPoints : OccluderPoints := ⟨⟨0, 0⟩, ⟨0, 0⟩, ⟨0, 0⟩, ⟨0, 0⟩⟩

/-- `OccludingPlane::new` (`src/occluding_plane.rs:46-82`): `points: None`,
`is_back: false`, zeroed `debug_points`, `updated_buffers: None`. -/
def OccState.new (transform : Mat4) (reverse_winding : Bool) : OccState :=
  { transform := transform
    points := none
    is_back := false
    reverse_winding := reverse_winding
    debug_points := zeroPoints
    updated_buffers := none }

/-- `OccludingPlane::update_buffers` (`src/occluding_plane.rs:179-206`).
`parity` is `info.partial.frame_parity`.  The second component is the vertex
data uploaded to the subbuffer this call, `none` when the upload was skipped. -/
def OccState.update_buffers (s : OccState) (origin : Vec3) (projection_view : Mat4)
    (parity : Bool) : OccState × Option (List Vec4) :=
  -- `self.set_updated(&info.partial);`
  let s := { s with updated_buffers := some parity }
  let cv := calculate_vertices s.transform origin projection_view s.reverse_winding
  let vertices := cv.1
  let points := cv.2.1
  let is_clockwise := cv.2.2
  let s := { s with is_back := !(xor is_clockwise s.reverse_winding) }
  let s := { s with debug_points := points }
  if s.is_back then
    ({ s with points := none }, none)
  else
    ({ s with points := some points }, some vertices)

/-- `OccludingPlane::draw` (`src/occluding_plane.rs:208-237`).  `parity` is
`info.object_info.frame_parity`.  `none` models the fatal `assert_updated`
failure; `some recorded` tells whether a draw command was recorded. -/
def OccState.draw (s : OccState) (parity : Bool) : Option Bool :=
  -- `self.assert_updated(&info.object_info);`
  if s.updated_buffers = some parity then
    -- `if self.is_back { return; }` else record the indexed draw
    some (!s.is_back)
  else
    none

/-! ## The debug dirty-guard as a trace property
(`impl_updated_check`, `src/object.rs:68-94`). -/

/-- One call on a single drawable object, as seen by the dirty-guard:
`set p` is `set_updated` with frame parity `p` (issued by `update_buffers`),
`draw p` is a `draw` call with frame parity `p` (which runs
`assert_updated(p)` and leaves the guard untouched). -/
inductive GuardOp where
  | set (p : Bool)
  | draw (p : Bool)
deriving Repr, DecidableEq

/-- Effect of one call on the `updated_buffers` field: `set_updated` stores
`Some(frame_parity)`; `draw`/`assert_updated` never writes it. -/
def guardStep (s : Option Bool) : GuardOp → Option Bool
  | .set p => some p
  | .draw _ => s

/-- Guard state after a sequence of calls, from construction
(`updated_buffers: None`). -/
def guardAfter (ops : List GuardOp) : Option Bool :=
  ops.foldl guardStep none

/-- `assert_updated(p)` succeeds iff `self.updated_buffers == Some(p)`
(`src/object.rs:83-92`). -/
def assertPasses (ops : List GuardOp) (p : Bool) : Prop :=
  guardAfter ops = some p

instance (ops : List GuardOp) (p : Bool) : Decidable (assertPasses ops p) := by
  unfold assertPasses; infer_instance

def GuardOp.isDraw : GuardOp → Bool
  | .set _ => false
  | .draw _ => true

/-! ## `Model` and `Object::set_inplace_model_same_sized`
(`src/object/model.rs:76-82`, `src/object.rs:195-202`). -/

/-- `Model` of `src/object/model.rs`: `vertices: Vec<[f32; 3]>`,
`indices: Vec<u16>`, `uvs: Vec<[f32; 2]>`. -/
structure Model where
  vertices : List Vec3
  indices : List Nat
  uvs : List Vec2
deriving Repr, DecidableEq

/-- `Object::set_inplace_model_same_sized` (`src/object.rs:195-202`): two
`assert_eq!` on vertex and index counts, then `*current_model = model`.
Returns the stored model afterwards and whether the call panicked; on the
panic path the assignment is never reached, so the stored model is the old
one. -/
def set_inplace_model_same_sized (stored model : Model) : Model × Bool :=
  if stored.vertices.length ≠ model.vertices.length then
    (stored, true)
  else if stored.indices.length ≠ model.indices.length then
    (stored, true)
  else
    (model, false)

/-! ## The frame/event loop (`src/window.rs`). -/

/-- Requested swapchain image count in `RenderInfo::new`
(`src/window.rs:263`): `capabilities.min_image_count.max(2)`.  No other field
of the capabilities is consulted. -/
def requestedImageCount (min_image_count : Nat) : Nat :=
  max min_image_count 2

/-- Surface capabilities fields relevant to the swapchain size:
`min_image_count` and `max_image_count` (`None` = unbounded). -/
structure SurfaceCaps where
  min_image_count : Nat
  max_image_count : Option Nat
deriving Repr, DecidableEq

/-- Outcome of `swapchain::acquire_next_image` as matched in `handle_redraw`
(`src/window.rs:944-962`): success carries the `suboptimal` flag; `outOfDate`
is `Err(Validated::Error(VulkanError::OutOfDate))`; any other error panics. -/
inductive AcquireOutcome where
  | ok (suboptimal : Bool)
  | outOfDate
  | otherError
deriving Repr, DecidableEq

/-- Environment of one `RedrawRequested` tick: the surface size read at the
start of the event arm, whether `RenderInfo::recreate` would succeed if
called, the acquire outcome if an acquire is attempted, and whether the
present/flush reports `OutOfDate` (`execute_builder`,
`src/window.rs:1104-1150`). -/
structure RedrawEnv where
  width : Nat
  height : Nat
  recreateOk : Bool
  acq : AcquireOutcome
  presentOutOfDate : Bool
deriving Repr, DecidableEq

/-- The mutable fields of `HandleEventInfo` the loop claims are about
(`src/window.rs:525-540`): `engine`/`user_app` presence collapses to
`hasUserApp` (they are created together in the init branch). -/
structure LoopState where
  initialized : Bool
  hasUserApp : Bool
  recreateSwapchain : Bool
  windowResized : Bool
  frameParity : Bool
deriving Repr, DecidableEq

/-- Initial state after `InfoInit::initialize`
(`From<HandleEventInfoRaw>`, `src/window.rs:542-562`). -/
def LoopState.start : LoopState :=
  { initialized := false
    hasUserApp := false
    recreateSwapchain := false
    windowResized := false
    frameParity := false }

/-- Observable actions of one tick. -/
structure RedrawActions where
  acquireAttempted : Bool
  drew : Bool
  didInit : Bool
deriving Repr, DecidableEq

def noActions : RedrawActions :=
  { acquireAttempted := false, drew := false, didInit := false }

/-- The tail of `handle_redraw` from `acquire_next_image` on
(`src/window.rs:944-1027`).  `none` models a panic. -/
def acquirePhase (s : LoopState) (e : RedrawEnv) : Option (LoopState × RedrawActions) :=
  match e.acq with
  | .outOfDate =>
      -- `Err(OutOfDate) => { None }`: acquired is None, the whole
      -- `if let Some(...)` body is skipped; no flag is written
      some (s, { acquireAttempted := true, drew := false, didInit := false })
  | .otherError => none
  | .ok suboptimal =>
      if !s.initialized then
        -- first-frame initialization: engine and user app are created
        let s := { s with initialized := true, hasUserApp := true }
        some ({ s with
                  frameParity := !s.frameParity
                  recreateSwapchain := s.recreateSwapchain || suboptimal || e.presentOutOfDate },
              { acquireAttempted := true, drew := true, didInit := true })
      else if !s.hasUserApp then
        -- `else if info.user_app.is_none() { return; }`
        some (s, { acquireAttempted := true, drew := false, didInit := false })
      else
        some ({ s with
                  frameParity := !s.frameParity
                  recreateSwapchain := s.recreateSwapchain || suboptimal || e.presentOutOfDate },
              { acquireAttempted := true, drew := true, didInit := false })

/-- `handle_redraw` (`src/window.rs:904-1028`).  `none` models a panic
(the `panic!("couldnt recreate swapchain ; -; ...")` arm, or a fatal acquire
error). -/
def handle_redraw (s : LoopState) (e : RedrawEnv) : Option (LoopState × RedrawActions) :=
  if s.recreateSwapchain || (s.initialized && s.windowResized) then
    if !e.recreateOk then
      -- `Err(e) => panic!("couldnt recreate swapchain ; -; ({e})")`
      none
    else
      let s := { s with recreateSwapchain := false }
      if !s.initialized then
        -- `if !info.initialized { return; }`
        some (s, noActions)
      else
        acquirePhase { s with windowResized := false } e
  else
    acquirePhase s e

/-- The `WindowEvent::RedrawRequested` arm of `window_event`
(`src/window.rs:810-822`): a zero surface size returns before
`handle_redraw` is called. -/
def redrawEvent (s : LoopState) (e : RedrawEnv) : Option (LoopState × RedrawActions) :=
  if e.width = 0 || e.height = 0 then
    some (s, noActions)
  else
    handle_redraw s e

/-- Events of one run that touch the modelled state: redraw ticks,
`Resized` (sets `window_resized`), and everything else (ignored). -/
inductive Ev where
  | redraw (e : RedrawEnv)
  | resized
  | other
deriving Repr, DecidableEq

/-- One `window_event` dispatch (`src/window.rs:795-901`). -/
def loopStep (s : LoopState) : Ev → Option (LoopState × RedrawActions)
  | .redraw e => redrawEvent s e
  | .resized => some ({ s with windowResized := true }, noActions)
  | .other => some (s, noActions)

/-- Run a sequence of events; the second component counts the ticks that
performed first-frame initialization.  `none` when some tick panicked. -/
def runTrace (s : LoopState) : List Ev → Option (LoopState × Nat)
  | [] => some (s, 0)
  | ev :: rest =>
    match loopStep s ev with
    | none => none
    | some (s', a) =>
      match runTrace s' rest with
      | none => none
      | some (sf, n) => some (sf, (if a.didInit then 1 else 0) + n)

/-! ## Helper lemmas -/

/-- The winding classification of `calculate_vertices` does not read
`reverse_winding`: that flag only selects the emitted vertex order. -/
lemma calculate_vertices_clockwise_irrel (t : Mat4) (o : Vec3) (pv : Mat4) (r r' : Bool) :
    (calculate_vertices t o pv r).2.2 = (calculate_vertices t o pv r').2.2 := by
  simp [calculate_vertices]

/-- The points returned by `calculate_vertices` do not read `reverse_winding`. -/
lemma calculate_vertices_points_irrel (t : Mat4) (o : Vec3) (pv : Mat4) (r r' : Bool) :
    (calculate_vertices t o pv r).2.1 = (calculate_vertices t o pv r').2.1 := by
  simp [calculate_vertices]

lemma update_buffers_is_back (s : OccState) (o : Vec3) (pv : Mat4) (parity : Bool) :
    ((s.update_buffers o pv parity).1).is_back
      = !(xor (calculate_vertices s.transform o pv s.reverse_winding).2.2 s.reverse_winding) := by
  simp only [OccState.update_buffers]
  split <;> simp

lemma update_buffers_updated (s : OccState) (o : Vec3) (pv : Mat4) (parity : Bool) :
    ((s.update_buffers o pv parity).1).updated_buffers = some parity := by
  simp only [OccState.update_buffers]
  split <;> simp

lemma update_buffers_points (s : OccState) (o : Vec3) (pv : Mat4) (parity : Bool) :
    ((s.update_buffers o pv parity).1).points
      = (if ((s.update_buffers o pv parity).1).is_back then none
          else some (calculate_vertices s.transform o pv s.reverse_winding).2.1) := by
  simp only [OccState.update_buffers]
  split <;> simp_all

lemma update_buffers_upload (s : OccState) (o : Vec3) (pv : Mat4) (parity : Bool) :
    ((s.update_buffers o pv parity).2)
      = (if ((s.update_buffers o pv parity).1).is_back then none
          else some (calculate_vertices s.transform o pv s.reverse_winding).1) := by
  simp only [OccState.update_buffers]
  split <;> simp_all

/-! ## Claim theorems -/

/-- The claim's precondition for a passing `assert_updated(p)`: somewhere
before it there is a `set_updated(p)` with no draw for the same object in
between. -/
def precededNoDraw (ops : List GuardOp) (p : Bool) : Prop :=
  ∃ pre mid, ops = pre ++ GuardOp.set p :: mid ∧ ∀ o ∈ mid, o.isDraw = false

/-- Folding the guard from `some p` over calls that never set the other
parity stays at `some p`. -/
lemma guard_foldl_stable (p : Bool) (l : List GuardOp)
    (h : ∀ q, GuardOp.set q ∈ l → q = p) :
    l.foldl guardStep (some p) = some p := by
  induction l with
  | nil => rfl
  | cons a l ih =>
    cases a with
    | set q =>
      have hq : q = p := h q (List.mem_cons_self _ _)
      subst hq
      exact ih fun q hm => h q (List.mem_cons_of_mem _ hm)
    | draw q =>
      exact ih fun q hm => h q (List.mem_cons_of_mem _ hm)

/-- Folding the guard from a state other than `some p` over calls that never
run `set_updated(p)` cannot reach `some p`. -/
lemma guard_foldl_ne (p : Bool) (l : List GuardOp) :
    ∀ s : Option Bool, s ≠ some p → GuardOp.set p ∉ l → l.foldl guardStep s ≠ some p := by
  induction l with
  | nil => exact fun _ hs _ => hs
  | cons a l ih =>
    intro s hs h
    have hl : GuardOp.set p ∉ l := fun hm => h (List.mem_cons_of_mem _ hm)
    cases a with
    | set q =>
      have hqp : q ≠ p := fun hq => h (by rw [hq]; exact List.mem_cons_self _ _)
      exact ih (some q) (by simpa using hqp) hl
    | draw q => exact ih s hs hl

/-- C1 (amended): `assert_updated(p)` never fails when it is preceded, with
no intervening draw for the same object *and no intervening `set_updated` of
the other parity*, by a `set_updated(p)`; it always fails when no
`set_updated(p)` has occurred since construction, and also when a draw for a
different parity `q` passed its own check (so the guard held `Some(q)`) and
no `set_updated(p)` followed — draws themselves never write the guard. -/
theorem dirty_guard_soundness (ops : List GuardOp) (p : Bool) :
    ((∃ pre mid, ops = pre ++ GuardOp.set p :: mid
        ∧ (∀ o ∈ mid, o.isDraw = false) ∧ (∀ o ∈ mid, o ≠ GuardOp.set (!p)))
      → assertPasses ops p)
    ∧ (GuardOp.set p ∉ ops → ¬ assertPasses ops p)
    ∧ (∀ pre q rest, ops = pre ++ GuardOp.draw q :: rest → q ≠ p
        → guardAfter pre = some q → GuardOp.set p ∉ rest
        → ¬ assertPasses ops p) := by
  refine ⟨?_, ?_, ?_⟩
  · rintro ⟨pre, mid, rfl, hnd, hns⟩
    show guardAfter _ = some p
    unfold guardAfter
    rw [List.foldl_append, List.foldl_cons]
    show List.foldl guardStep (some p) mid = some p
    refine guard_foldl_stable p mid fun q hm => ?_
    have := hns _ hm
    cases q with
    | false => cases p with
      | false => rfl
      | true => simp at this
    | true => cases p with
      | false => simp at this
      | true => rfl
  · intro h
    exact guard_foldl_ne p ops none (by simp) h
  · rintro pre q rest rfl hq hpre hrest
    show guardAfter _ ≠ some p
    unfold guardAfter
    rw [List.foldl_append, List.foldl_cons]
    unfold guardAfter at hpre
    rw [show guardStep (List.foldl guardStep none pre) (GuardOp.draw q)
          = List.foldl guardStep none pre from rfl, hpre]
    exact guard_foldl_ne p rest (some q) (by simpa using hq) hrest

/-- C1 counterexample: the claim as stated fails on the call sequence
`[set_updated(true), set_updated(false)]` with `p = true`: the
`assert_updated(true)` is preceded by a `set_updated(true)` with no
intervening draw, yet the guard holds `Some(false)` and the assert fails
(a later `set_updated` of the other parity overwrote the mark). -/
theorem dirty_guard_counterexample :
    precededNoDraw [GuardOp.set true, GuardOp.set false] true
    ∧ ¬ assertPasses [GuardOp.set true, GuardOp.set false] true := by
  constructor
  · exact ⟨[], [GuardOp.set false], rfl, by decide⟩
  · decide

/-- C2: after `update_buffers` with the winding classified as clockwise `c`
and construction-time flag `r`, the stored `is_back` equals `!(c XOR r)`;
the vertex-buffer upload is skipped exactly when `is_back` holds; and the
frame's draw call records a command exactly when `is_back` is false (with the
guard parity matching; any other parity dies in the debug assert). -/
theorem occluder_back_face_gating (s : OccState) (origin : Vec3) (pv : Mat4) (parity : Bool) :
    ((s.update_buffers origin pv parity).1).is_back
      = !(xor (calculate_vertices s.transform origin pv s.reverse_winding).2.2 s.reverse_winding)
    ∧ ((s.update_buffers origin pv parity).2).isNone
      = ((s.update_buffers origin pv parity).1).is_back
    ∧ (∀ q : Bool, ((s.update_buffers origin pv parity).1).draw q
        = if q = parity then some (!((s.update_buffers origin pv parity).1).is_back) else none) := by
  refine ⟨update_buffers_is_back s origin pv parity, ?_, ?_⟩
  · rw [update_buffers_upload]
    split <;> simp_all
  · intro q
    simp only [OccState.draw, update_buffers_updated]
    rcases eq_or_ne q parity with h | h
    · subst h; simp
    · simp [h, Ne.symm h]

/-- C4: flipping `reverse_winding` while keeping the transform and the light
origin flips the computed `is_back`, because the winding classification never
reads `reverse_winding` and `is_back = !(is_clockwise ^ reverse_winding)`. -/
theorem occluder_reverse_winding_flips_is_back (s : OccState) (origin : Vec3) (pv : Mat4)
    (parity : Bool) :
    (OccState.update_buffers { s with reverse_winding := true } origin pv parity).1.is_back
      = !((OccState.update_buffers { s with reverse_winding := false } origin pv parity).1.is_back) := by
  rw [update_buffers_is_back, update_buffers_is_back]
  simp only
  rw [calculate_vertices_clockwise_irrel s.transform origin pv true false]
  cases (calculate_vertices s.transform origin pv false).2.2 <;> simp

/-- C8: `set_inplace_model_same_sized` panics (an `assert_eq!`, not a
`Result`) exactly when the new model's vertex count or index count differs
from the stored model's; with equal counts the stored model becomes the new
one, and on the panic path the stored model is left unchanged. -/
theorem set_inplace_model_contract (stored model : Model) :
    (stored.vertices.length = model.vertices.length
      → stored.indices.length = model.indices.length
      → set_inplace_model_same_sized stored model = (model, false))
    ∧ (stored.vertices.length ≠ model.vertices.length
        ∨ stored.indices.length ≠ model.indices.length
      → set_inplace_model_same_sized stored model = (stored, true)) := by
  unfold set_inplace_model_same_sized
  constructor
  · intro hv hi
    simp [hv, hi]
  · intro h
    rcases h with h | h
    · simp [h]
    · split
      · rfl
      · simp [h]

/-- C9 (amended): the requested swapchain image count is
`max(min_image_count, 2)`: always at least 2, and also at most the platform
maximum whenever that maximum is at least 2 and respects the Vulkan guarantee
`min ≤ max`; the code itself never reads `max_image_count`, so it does not
clamp to the maximum. -/
theorem swapchain_image_count_bounds (caps : SurfaceCaps) (m : Nat)
    (_hmax : caps.max_image_count = some m) (h2 : 2 ≤ m)
    (hminmax : caps.min_image_count ≤ m) :
    2 ≤ requestedImageCount caps.min_image_count
    ∧ requestedImageCount caps.min_image_count ≤ m := by
  unfold requestedImageCount
  omega

/-- Witness for C9's amended theorem at `min = 1`, `max = Some 3`. -/
theorem swapchain_image_count_bounds_witness :
    2 ≤ requestedImageCount (SurfaceCaps.mk 1 (some 3)).min_image_count
    ∧ requestedImageCount (SurfaceCaps.mk 1 (some 3)).min_image_count ≤ 3 :=
  swapchain_image_count_bounds ⟨1, some 3⟩ 3 rfl (by decide) (by decide)

/-- C9 counterexample: with capabilities `min_image_count = 1`,
`max_image_count = Some 1` (legal under Vulkan), the code requests
`max(1, 2) = 2` images, which exceeds the platform-reported maximum — the
claim that the image count is at most the platform maximum fails. -/
theorem swapchain_image_count_counterexample :
    (SurfaceCaps.mk 1 (some 1)).max_image_count = some 1
    ∧ requestedImageCount (SurfaceCaps.mk 1 (some 1)).min_image_count = 2
    ∧ ¬ requestedImageCount (SurfaceCaps.mk 1 (some 1)).min_image_count ≤ 1 := by
  refine ⟨rfl, rfl, by decide⟩

/-- The winding classification block of `calculate_vertices`
(`src/occluding_plane.rs:127-136`), with the vector it projects for the far
edge factored out as `windingTopLeftArg`. -/
def windingFrom (t : Mat4) (o : Vec3) (pv : Mat4) : Bool :=
  let un_bottom_left := t.mulVec ⟨-(1/2 : ℚ), 0, 0, 1⟩
  let un_bottom_right := t.mulVec ⟨(1/2 : ℚ), 0, 0, 1⟩
  let bottom_left := pv.mulVec un_bottom_left
  let bottom_right := { pv.mulVec un_bottom_right with z := bottom_left.z }
  let w_top_left := pv.mulVec (windingTopLeftArg t o)
  let i0 : Vec2 := ⟨bottom_right.x - bottom_left.x, bottom_right.y - bottom_left.y⟩
  let i1 : Vec2 := ⟨w_top_left.x - bottom_left.x, w_top_left.y - bottom_left.y⟩
  decide (i0.x * i1.y > i0.y * i1.x)

/-- C3 (amended): the stored far-edge points follow `top = base + (base −
origin)` in the xy plane; the winding classification is computed from the
projection of `base + (base − origin)` taken with `w = 1` and z untouched;
but the emitted top vertices are computed from the direction `base − origin`
with z forced to 0 and `w = 0` — not from that same extruded point. -/
theorem occluder_extrusion_structure (t : Mat4) (o : Vec3) (pv : Mat4) (r : Bool) :
    (calculate_vertices t o pv r).2.1.top_left = (specTopLeft t o).xy
    ∧ (calculate_vertices t o pv r).2.1.top_right = (specTopRight t o).xy
    ∧ ((calculate_vertices t o pv r).1).get? 1
      = some { pv.mulVec (vertexTopLeftArg t o)
                 with z := (pv.mulVec (t.mulVec ⟨-(1/2 : ℚ), 0, 0, 1⟩)).z }
    ∧ vertexTopLeftArg t o
      = with_w ⟨(t.mulVec ⟨-(1/2 : ℚ), 0, 0, 1⟩).x - o.x,
                (t.mulVec ⟨-(1/2 : ℚ), 0, 0, 1⟩).y - o.y, 0⟩ 0
    ∧ (calculate_vertices t o pv r).2.2 = windingFrom t o pv
    ∧ (windingTopLeftArg t o).x = (specTopLeft t o).x
    ∧ (windingTopLeftArg t o).y = (specTopLeft t o).y
    ∧ (windingTopLeftArg t o).z
      = (t.mulVec ⟨-(1/2 : ℚ), 0, 0, 1⟩).z + (t.mulVec ⟨-(1/2 : ℚ), 0, 0, 1⟩).z - o.z
    ∧ (windingTopLeftArg t o).w = 1 := by
  refine ⟨?_, ?_, ?_, rfl, rfl, ?_, ?_, rfl, rfl⟩
  · simp only [calculate_vertices, specTopLeft, Vec4.xyz, Vec3.xy, Vec4.xy, Vec2.mk.injEq]
    constructor <;> ring
  · simp only [calculate_vertices, specTopRight, Vec4.xyz, Vec3.xy, Vec4.xy, Vec2.mk.injEq]
    constructor <;> ring
  · cases r <;> simp [calculate_vertices, vertexTopLeftArg]
  · simp only [windingTopLeftArg, specTopLeft, Vec4.xyz, with_w]
    ring
  · simp only [windingTopLeftArg, specTopLeft, Vec4.xyz, with_w]
    ring

/-- C3 counterexample: at the identity transform and projection with the
light at the origin, the vector the emitted top-left vertex is computed from
(`(-1/2, 0, 0, 0)`) is neither the vector the winding classification projects
(`(-1, 0, 0, 1)`) nor the spec's extruded point `base + (base − origin)`
(`(-1, 0, 0)`): the claim that one extruded point feeds both is false. -/
theorem occluder_extrusion_counterexample :
    vertexTopLeftArg id4 ⟨0, 0, 0⟩ ≠ windingTopLeftArg id4 ⟨0, 0, 0⟩
    ∧ vertexTopLeftArg id4 ⟨0, 0, 0⟩ ≠ with_w (specTopLeft id4 ⟨0, 0, 0⟩) 0
    ∧ ((calculate_vertices id4 ⟨0, 0, 0⟩ id4 false).1).get? 1
      = some ⟨-(1/2 : ℚ), 0, 0, 0⟩ := by
  refine ⟨?_, ?_, ?_⟩
  · norm_num [vertexTopLeftArg, windingTopLeftArg, id4, Mat4.mulVec, dot4, with_w,
      Vec4.mk.injEq]
  · norm_num [vertexTopLeftArg, specTopLeft, id4, Mat4.mulVec, dot4, with_w, Vec4.xyz,
      Vec4.mk.injEq]
  · norm_num [calculate_vertices, id4, Mat4.mulVec, dot4, with_w, Vec4.mk.injEq]

/-- C10: `update_buffers` stores the frame parity in the debug dirty marker
before the visibility test, so even a back-facing occluder passes the
updated-check on a same-parity draw; and after `update_buffers`, `points` is
`None` exactly when `is_back` is true. -/
theorem occluder_update_marks_before_visibility (s : OccState) (origin : Vec3) (pv : Mat4)
    (parity : Bool) :
    ((s.update_buffers origin pv parity).1).updated_buffers = some parity
    ∧ ((s.update_buffers origin pv parity).1).draw parity
      = some (!((s.update_buffers origin pv parity).1).is_back)
    ∧ ((s.update_buffers origin pv parity).1).points.isNone
      = ((s.update_buffers origin pv parity).1).is_back := by
  refine ⟨update_buffers_updated s origin pv parity, ?_, ?_⟩
  · simp [OccState.draw, update_buffers_updated]
  · rw [update_buffers_points]
    split <;> simp_all

/-! ### Event-loop lemmas -/

lemma acquirePhase_init (s : LoopState) (e : RedrawEnv) (r : LoopState) (a : RedrawActions)
    (h : acquirePhase s e = some (r, a)) :
    (a.didInit = true → s.initialized = false ∧ (∃ sub, e.acq = AcquireOutcome.ok sub)
      ∧ a.acquireAttempted = true ∧ a.drew = true)
    ∧ r.initialized = (s.initialized || a.didInit) := by
  unfold acquirePhase at h
  cases hacq : e.acq with
  | outOfDate =>
    rw [hacq] at h
    simp only [Option.some.injEq, Prod.mk.injEq] at h
    obtain ⟨rfl, rfl⟩ := h
    simp
  | otherError =>
    rw [hacq] at h
    simp at h
  | ok sub =>
    rw [hacq] at h
    by_cases hi : s.initialized = true
    · rw [hi] at h
      by_cases hu : s.hasUserApp = true
      · rw [hu] at h
        simp only [Bool.not_true, Bool.false_eq_true, if_false, Option.some.injEq,
          Prod.mk.injEq] at h
        obtain ⟨rfl, rfl⟩ := h
        simp [hi]
      · rw [Bool.not_eq_true] at hu
        rw [hu] at h
        simp only [Bool.not_true, Bool.false_eq_true, if_false, Bool.not_false, if_true,
          Option.some.injEq, Prod.mk.injEq] at h
        obtain ⟨rfl, rfl⟩ := h
        simp [hi]
    · rw [Bool.not_eq_true] at hi
      rw [hi] at h
      simp only [Bool.not_false, if_true, Option.some.injEq, Prod.mk.injEq] at h
      obtain ⟨rfl, rfl⟩ := h
      simp [hi, hacq]

lemma handle_redraw_init (s : LoopState) (e : RedrawEnv) (r : LoopState) (a : RedrawActions)
    (h : handle_redraw s e = some (r, a)) :
    (a.didInit = true → s.initialized = false ∧ (∃ sub, e.acq = AcquireOutcome.ok sub)
      ∧ a.acquireAttempted = true ∧ a.drew = true)
    ∧ r.initialized = (s.initialized || a.didInit) := by
  unfold handle_redraw at h
  split at h
  · split at h
    · simp at h
    · by_cases hi : s.initialized = true
      · rw [hi] at h
        simp only [Bool.not_true, Bool.false_eq_true, if_false] at h
        have := acquirePhase_init _ _ _ _ h
        simpa [hi] using this
      · rw [Bool.not_eq_true] at hi
        rw [hi] at h
        simp only [Bool.not_false, if_true, Option.some.injEq, Prod.mk.injEq] at h
        obtain ⟨rfl, rfl⟩ := h
        simp [hi, noActions]
  · exact acquirePhase_init _ _ _ _ h

lemma loopStep_init (s : LoopState) (ev : Ev) (r : LoopState) (a : RedrawActions)
    (h : loopStep s ev = some (r, a)) :
    (a.didInit = true → s.initialized = false)
    ∧ r.initialized = (s.initialized || a.didInit) := by
  cases ev with
  | redraw e =>
    simp only [loopStep, redrawEvent] at h
    split at h
    · simp only [Option.some.injEq, Prod.mk.injEq] at h
      obtain ⟨rfl, rfl⟩ := h
      simp [noActions]
    · have := handle_redraw_init _ _ _ _ h
      exact ⟨fun hd => (this.1 hd).1, this.2⟩
  | resized =>
    simp only [loopStep, Option.some.injEq, Prod.mk.injEq] at h
    obtain ⟨rfl, rfl⟩ := h
    simp [noActions]
  | other =>
    simp only [loopStep, Option.some.injEq, Prod.mk.injEq] at h
    obtain ⟨rfl, rfl⟩ := h
    simp [noActions]

/-- Over any event trace, initialization ticks are bounded by 1 from an
uninitialized state and by 0 from an initialized one. -/
lemma runTrace_init_bound (evs : List Ev) :
    ∀ (s : LoopState) (s' : LoopState) (n : Nat), runTrace s evs = some (s', n)
      → n ≤ (if s.initialized then 0 else 1) := by
  induction evs with
  | nil =>
    intro s s' n h
    simp only [runTrace, Option.some.injEq, Prod.mk.injEq] at h
    obtain ⟨rfl, rfl⟩ := h
    split <;> simp
  | cons ev rest ih =>
    intro s s' n h
    simp only [runTrace] at h
    cases hstep : loopStep s ev with
    | none => rw [hstep] at h; simp at h
    | some pr =>
      obtain ⟨s1, a⟩ := pr
      rw [hstep] at h
      dsimp only at h
      cases htr : runTrace s1 rest with
      | none => rw [htr] at h; simp at h
      | some pr2 =>
        obtain ⟨sf, m⟩ := pr2
        rw [htr] at h
        dsimp only at h
        simp only [Option.some.injEq, Prod.mk.injEq] at h
        obtain ⟨rfl, rfl⟩ := h
        have hstep' := loopStep_init _ _ _ _ hstep
        have hm := ih _ _ _ htr
        by_cases hd : a.didInit = true
        · have hi := hstep'.1 hd
          have h1 : s1.initialized = true := by rw [hstep'.2, hd, hi]; rfl
          rw [h1] at hm
          rw [hi, hd]
          simpa using hm
        · rw [Bool.not_eq_true] at hd
          rw [hd]
          have h1 : s1.initialized = s.initialized := by rw [hstep'.2, hd]; simp
          rw [h1] at hm
          simpa using hm

/-- C5 (amended): when the recreate branch of `handle_redraw` runs (the
recreate flag is set, or the handler is initialized and the window was
resized) and `RenderInfo::recreate` fails, `handle_redraw` panics: the
failure is fatal, not transient. -/
theorem recreate_failure_panics (s : LoopState) (e : RedrawEnv)
    (hbranch : (s.recreateSwapchain || (s.initialized && s.windowResized)) = true)
    (hw : e.width ≠ 0) (hh : e.height ≠ 0) (hr : e.recreateOk = false) :
    redrawEvent s e = none := by
  simp [redrawEvent, handle_redraw, hbranch, hw, hh, hr]

/-- Witness for C5's amended theorem: an initialized, resized handler whose
recreate fails on a 100×100 surface panics. -/
theorem recreate_failure_panics_witness :
    redrawEvent ⟨true, true, false, true, false⟩ ⟨100, 100, false, AcquireOutcome.ok false, false⟩
      = none :=
  recreate_failure_panics ⟨true, true, false, true, false⟩
    ⟨100, 100, false, AcquireOutcome.ok false, false⟩ rfl (by decide) (by decide) rfl

/-- C5 counterexample: with the recreate flag set and a failing recreate at a
non-zero surface size, the tick panics (`None`), terminating the process —
the claim that recreate failure is treated as transient and never terminates
the process is false. -/
theorem recreate_failure_counterexample :
    redrawEvent ⟨true, true, true, false, false⟩ ⟨100, 100, false, AcquireOutcome.ok false, false⟩
      = none := by
  decide

/-- C6 (amended): when acquiring the next image reports the surface stale
(out-of-date), the handler returns without drawing that tick, but it does
*not* set `recreate_swapchain`: the state is returned unchanged.  The flag is
only set by a suboptimal acquire, an out-of-date present, or a resize. -/
theorem acquire_stale_skips_frame (s : LoopState) (e : RedrawEnv)
    (hi : s.initialized = true) (hrc : s.recreateSwapchain = false)
    (hwr : s.windowResized = false) (hw : e.width ≠ 0) (hh : e.height ≠ 0)
    (hacq : e.acq = AcquireOutcome.outOfDate) :
    redrawEvent s e = some (s, ⟨true, false, false⟩) := by
  simp [redrawEvent, handle_redraw, acquirePhase, hi, hrc, hwr, hw, hh, hacq]

/-- Witness for C6's amended theorem at a concrete initialized state. -/
theorem acquire_stale_witness :
    redrawEvent ⟨true, true, false, false, false⟩ ⟨64, 64, true, AcquireOutcome.outOfDate, false⟩
      = some (⟨true, true, false, false, false⟩, ⟨true, false, false⟩) :=
  acquire_stale_skips_frame ⟨true, true, false, false, false⟩
    ⟨64, 64, true, AcquireOutcome.outOfDate, false⟩ rfl rfl rfl (by decide) (by decide) rfl

/-- C6 counterexample: on an out-of-date acquire the tick ends with
`recreate_swapchain` still `false` (the returned state is the entry state
unchanged), refuting the claim that the handler sets the needs-recreate flag
on this path. -/
theorem acquire_stale_counterexample :
    redrawEvent ⟨true, true, false, false, false⟩ ⟨100, 100, true, AcquireOutcome.outOfDate, false⟩
      = some (⟨true, true, false, false, false⟩, ⟨true, false, false⟩)
    ∧ (⟨true, true, false, false, false⟩ : LoopState).recreateSwapchain = false := by
  constructor
  · decide
  · rfl

/-- C7: at a zero-size surface a redraw tick attempts no acquire, draws
nothing and changes nothing; any tick that performs first-frame
initialization attempted an acquire that succeeded at a non-zero size from an
uninitialized state and leaves the handler initialized; an initialized
handler never re-initializes; over any run from the start state
initialization happens at most once; and an uninitialized handler that
successfully acquires at a non-zero size initializes and draws that tick. -/
theorem lazy_first_frame_initialization :
    (∀ (s : LoopState) (e : RedrawEnv), (e.width = 0 ∨ e.height = 0)
      → redrawEvent s e = some (s, noActions))
    ∧ (∀ (s : LoopState) (e : RedrawEnv) (r : LoopState) (a : RedrawActions),
        redrawEvent s e = some (r, a) → a.didInit = true
        → a.acquireAttempted = true ∧ (∃ sub, e.acq = AcquireOutcome.ok sub)
          ∧ e.width ≠ 0 ∧ e.height ≠ 0 ∧ s.initialized = false ∧ r.initialized = true)
    ∧ (∀ (s : LoopState) (ev : Ev) (r : LoopState) (a : RedrawActions),
        loopStep s ev = some (r, a) → s.initialized = true
        → r.initialized = true ∧ a.didInit = false)
    ∧ (∀ (evs : List Ev) (s' : LoopState) (n : Nat),
        runTrace LoopState.start evs = some (s', n) → n ≤ 1)
    ∧ (∀ (s : LoopState) (e : RedrawEnv) (sub : Bool),
        s.initialized = false → s.recreateSwapchain = false
        → e.width ≠ 0 → e.height ≠ 0 → e.acq = AcquireOutcome.ok sub
        → redrawEvent s e
          = some ({ s with
              initialized := true
              hasUserApp := true
              frameParity := !s.frameParity
              recreateSwapchain := sub || e.presentOutOfDate },
            ⟨true, true, true⟩)) := by
  refine ⟨?_, ?_, ?_, ?_, ?_⟩
  · intro s e hz
    rcases hz with hz | hz <;> simp [redrawEvent, hz]
  · intro s e r a h hd
    by_cases hz : (e.width = 0 || e.height = 0) = true
    · rw [redrawEvent, if_pos hz] at h
      simp only [Option.some.injEq, Prod.mk.injEq] at h
      obtain ⟨rfl, rfl⟩ := h
      simp [noActions] at hd
    · rw [redrawEvent, if_neg hz] at h
      have hwz : ¬ (e.width = 0) ∧ ¬ (e.height = 0) := by
        constructor <;> (intro hc; apply hz; simp [hc])
      have := handle_redraw_init _ _ _ _ h
      obtain ⟨hinit, hacq, hatt, hdrew⟩ := this.1 hd
      refine ⟨hatt, hacq, hwz.1, hwz.2, hinit, ?_⟩
      rw [this.2, hinit, hd]
      rfl
  · intro s ev r a h hi
    have := loopStep_init _ _ _ _ h
    have hd : a.didInit = false := by
      by_cases hd : a.didInit = true
      · rw [this.1 hd] at hi; exact absurd hi (by simp)
      · exact Bool.not_eq_true _ |>.mp hd
    refine ⟨by rw [this.2, hi, hd]; rfl, hd⟩
  · intro evs s' n h
    have := runTrace_init_bound evs LoopState.start s' n h
    simpa [LoopState.start] using this
  · intro s e sub hi hrc hw hh hacq
    simp [redrawEvent, handle_redraw, acquirePhase, hi, hrc, hw, hh, hacq]

end Yanya
